import Mathlib

/-!
Verification of the policy-machinery repository's object model, target
references, and controller runnables, shallowly embedded in Lean 4.

The `Machinery` namespace embeds the Gateway API wrapper types of the
`machinery` package (topology targetables and policy target references);
the `Controller` namespace embeds the `controller` package's runnables
(`StateReconciler`, `Restructure`) and the Gateway API topology builder.
-/

namespace Machinery

/-- `schema.GroupVersionKind` from k8s apimachinery. -/
structure GroupVersionKind where
  group : String
  version : String
  kind : String
deriving DecidableEq, Repr

/-- `schema.GroupKind` from k8s apimachinery. -/
structure GroupKind where
  group : String
  kind : String
deriving DecidableEq, Repr

/-- `const nameSectionNameURLSeparator = '#'` from the machinery package. -/
def nameSectionNameURLSeparator : Char := '#'

/-- `namespacedSectionName(namespace, sectionName)`: formats
`fmt.Sprintf("%s%s%s", namespace, string(nameSectionNameURLSeparator), sectionName)`. -/
def namespacedSectionName (ns : String) (sectionName : String) : String :=
  ns ++ String.singleton nameSectionNameURLSeparator ++ sectionName

/-- Modelled from the spec: `UrlFromObject` is used by every `GetURL` in the
sources but its own definition is not among the provided files. The spec
(§3, Glossary) describes the locator as a URL-like string, unique across the
graph, derived deterministically from group/kind/namespace/name. We model it
as a deterministic encoding of those four components, with the name placed
last so that appending a section suffix to the name appends it to the URL. -/
def UrlFromObject (group kind ns name : String) : String :=
  group ++ "/" ++ kind ++ ":" ++ ns ++ "/" ++ name

/-- `gwapiv1.GroupName` (= "gateway.networking.k8s.io"). -/
def gatewayAPIGroupName : String := "gateway.networking.k8s.io"

/-- `gwapiv1.GroupVersion.Version` (= "v1"). -/
def gatewayAPIVersion : String := "v1"

/-- Wrapper `machinery.Gateway` around `*gwapiv1.Gateway`; only the identity
fields that `GetURL`/`GetName`/`GetNamespace` read are carried. -/
structure Gateway where
  gvk : GroupVersionKind
  namespaceField : String
  name : String
deriving DecidableEq, Repr

/-- `Gateway.GetURL() = UrlFromObject(g)`. -/
def Gateway.GetURL (g : Gateway) : String :=
  UrlFromObject g.gvk.group g.gvk.kind g.namespaceField g.name

/-- Wrapper `machinery.Listener`: a Gateway listener expanded into its own
targetable node, holding a back-reference to its parent Gateway. -/
structure Listener where
  gateway : Gateway
  name : String
deriving DecidableEq, Repr

/-- `Listener.GetURL() = namespacedSectionName(UrlFromObject(l.Gateway), l.Name)`. -/
def Listener.GetURL (l : Listener) : String :=
  namespacedSectionName (UrlFromObject l.gateway.gvk.group l.gateway.gvk.kind l.gateway.namespaceField l.gateway.name) l.name

/-- `Listener.GetNamespace() = l.Gateway.GetNamespace()`. -/
def Listener.GetNamespace (l : Listener) : String :=
  l.gateway.namespaceField

/-- `Listener.GetName() = namespacedSectionName(l.Gateway.GetName(), l.Name)`. -/
def Listener.GetName (l : Listener) : String :=
  namespacedSectionName l.gateway.name l.name

/-- Wrapper `machinery.HTTPRoute` around `*gwapiv1.HTTPRoute`. -/
structure HTTPRoute where
  gvk : GroupVersionKind
  namespaceField : String
  name : String
deriving DecidableEq, Repr

/-- `HTTPRoute.GetURL() = UrlFromObject(r)`. -/
def HTTPRoute.GetURL (r : HTTPRoute) : String :=
  UrlFromObject r.gvk.group r.gvk.kind r.namespaceField r.name

/-- Wrapper `machinery.HTTPRouteRule`: an HTTPRoute rule expanded into its own
targetable node, holding a back-reference to its parent HTTPRoute. -/
structure HTTPRouteRule where
  httpRoute : HTTPRoute
  name : String
deriving DecidableEq, Repr

/-- `HTTPRouteRule.GetURL() = namespacedSectionName(UrlFromObject(r.HTTPRoute), r.Name)`. -/
def HTTPRouteRule.GetURL (r : HTTPRouteRule) : String :=
  namespacedSectionName (UrlFromObject r.httpRoute.gvk.group r.httpRoute.gvk.kind r.httpRoute.namespaceField r.httpRoute.name) r.name

/-- `HTTPRouteRule.GetName() = namespacedSectionName(r.HTTPRoute.Name, r.Name)`. -/
def HTTPRouteRule.GetName (r : HTTPRouteRule) : String :=
  namespacedSectionName r.httpRoute.name r.name

/-- Wrapper `machinery.Service` around `*core.Service`. -/
structure Service where
  gvk : GroupVersionKind
  namespaceField : String
  name : String
deriving DecidableEq, Repr

/-- `Service.GetURL() = UrlFromObject(s)`. -/
def Service.GetURL (s : Service) : String :=
  UrlFromObject s.gvk.group s.gvk.kind s.namespaceField s.name

/-- Wrapper `machinery.ServicePort`: a Service port expanded into its own
targetable node, holding a back-reference to its parent Service. -/
structure ServicePort where
  service : Service
  name : String
deriving DecidableEq, Repr

/-- `ServicePort.GetURL() = namespacedSectionName(UrlFromObject(p.Service), SectionName(p.Name))`. -/
def ServicePort.GetURL (p : ServicePort) : String :=
  namespacedSectionName (UrlFromObject p.service.gvk.group p.service.gvk.kind p.service.namespaceField p.service.name) p.name

/-- `ServicePort.GetName() = namespacedSectionName(p.Service.Name, SectionName(p.Name))`. -/
def ServicePort.GetName (p : ServicePort) : String :=
  namespacedSectionName p.service.name p.name

/-- `machinery.NamespacedPolicyTargetReference`: embeds the Gateway API
`NamespacedPolicyTargetReference` (Group, Kind, Name, optional Namespace)
plus the owning policy's namespace. -/
structure NamespacedPolicyTargetReference where
  group : String
  kind : String
  name : String
  namespaceField : Option String
  policyNamespace : String
deriving DecidableEq, Repr

/-- `NamespacedPolicyTargetReference.GroupVersionKind()` returns only Group and Kind. -/
def NamespacedPolicyTargetReference.GroupVersionKind (t : NamespacedPolicyTargetReference) : GroupVersionKind :=
  ⟨t.group, "", t.kind⟩

/-- The assignments the body of `NamespacedPolicyTargetReference.SetGroupVersionKind`
performs on its value receiver. -/
def NamespacedPolicyTargetReference.setGroupVersionKindReceiver (t : NamespacedPolicyTargetReference) (gvk : Machinery.GroupVersionKind) : NamespacedPolicyTargetReference :=
  { t with group := gvk.group, kind := gvk.kind }

/-- The observable effect of the call `t.SetGroupVersionKind(gvk)`: the method
has a value receiver, so Go copies `t`, the body updates the copy, the method
returns nothing, and the caller's value is left as it was. -/
def NamespacedPolicyTargetReference.SetGroupVersionKind (t : NamespacedPolicyTargetReference) (gvk : Machinery.GroupVersionKind) : NamespacedPolicyTargetReference :=
  (fun _updatedCopy => t) (NamespacedPolicyTargetReference.setGroupVersionKindReceiver t gvk)

/-- `NamespacedPolicyTargetReference.GetNamespace() = ptr.Deref(t.Namespace, Namespace(t.PolicyNamespace))`. -/
def NamespacedPolicyTargetReference.GetNamespace (t : NamespacedPolicyTargetReference) : String :=
  t.namespaceField.getD t.policyNamespace

/-- `NamespacedPolicyTargetReference.GetName() = string(t.NamespacedPolicyTargetReference.Name)`. -/
def NamespacedPolicyTargetReference.GetName (t : NamespacedPolicyTargetReference) : String :=
  t.name

/-- `NamespacedPolicyTargetReference.GetURL() = UrlFromObject(t)`, which reads the
reference's GroupKind, `GetNamespace()` and `GetName()`. -/
def NamespacedPolicyTargetReference.GetURL (t : NamespacedPolicyTargetReference) : String :=
  UrlFromObject t.group t.kind (NamespacedPolicyTargetReference.GetNamespace t) (NamespacedPolicyTargetReference.GetName t)

/-- `machinery.LocalPolicyTargetReference`: embeds the Gateway API
`LocalPolicyTargetReference` (Group, Kind, Name) plus the owning policy's namespace. -/
structure LocalPolicyTargetReference where
  group : String
  kind : String
  name : String
  policyNamespace : String
deriving DecidableEq, Repr

/-- `LocalPolicyTargetReference.GroupVersionKind()` returns only Group and Kind. -/
def LocalPolicyTargetReference.GroupVersionKind (t : LocalPolicyTargetReference) : GroupVersionKind :=
  ⟨t.group, "", t.kind⟩

/-- The assignments the body of `LocalPolicyTargetReference.SetGroupVersionKind`
performs on its value receiver. -/
def LocalPolicyTargetReference.setGroupVersionKindReceiver (t : LocalPolicyTargetReference) (gvk : Machinery.GroupVersionKind) : LocalPolicyTargetReference :=
  { t with group := gvk.group, kind := gvk.kind }

/-- The observable effect of the call `t.SetGroupVersionKind(gvk)` (value receiver:
the body updates a copy, the caller's value is unchanged). -/
def LocalPolicyTargetReference.SetGroupVersionKind (t : LocalPolicyTargetReference) (gvk : Machinery.GroupVersionKind) : LocalPolicyTargetReference :=
  (fun _updatedCopy => t) (LocalPolicyTargetReference.setGroupVersionKindReceiver t gvk)

/-- `LocalPolicyTargetReference.GetNamespace() = t.PolicyNamespace`. -/
def LocalPolicyTargetReference.GetNamespace (t : LocalPolicyTargetReference) : String :=
  t.policyNamespace

/-- `LocalPolicyTargetReference.GetName() = string(t.LocalPolicyTargetReference.Name)`. -/
def LocalPolicyTargetReference.GetName (t : LocalPolicyTargetReference) : String :=
  t.name

/-- `LocalPolicyTargetReference.GetURL() = UrlFromObject(t)`. -/
def LocalPolicyTargetReference.GetURL (t : LocalPolicyTargetReference) : String :=
  UrlFromObject t.group t.kind (LocalPolicyTargetReference.GetNamespace t) (LocalPolicyTargetReference.GetName t)

/-- `machinery.LocalPolicyTargetReferenceWithSectionName`: embeds the Gateway API
`LocalPolicyTargetReferenceWithSectionName` (Group, Kind, Name, optional
SectionName) plus the owning policy's namespace. -/
structure LocalPolicyTargetReferenceWithSectionName where
  group : String
  kind : String
  name : String
  sectionName : Option String
  policyNamespace : String
deriving DecidableEq, Repr

/-- `LocalPolicyTargetReferenceWithSectionName.GroupVersionKind()` returns only Group and Kind. -/
def LocalPolicyTargetReferenceWithSectionName.GroupVersionKind (t : LocalPolicyTargetReferenceWithSectionName) : GroupVersionKind :=
  ⟨t.group, "", t.kind⟩

/-- The assignments the body of
`LocalPolicyTargetReferenceWithSectionName.SetGroupVersionKind` performs on its
value receiver. -/
def LocalPolicyTargetReferenceWithSectionName.setGroupVersionKindReceiver (t : LocalPolicyTargetReferenceWithSectionName) (gvk : Machinery.GroupVersionKind) : LocalPolicyTargetReferenceWithSectionName :=
  { t with group := gvk.group, kind := gvk.kind }

/-- The observable effect of the call `t.SetGroupVersionKind(gvk)` (value receiver:
the body updates a copy, the caller's value is unchanged). -/
def LocalPolicyTargetReferenceWithSectionName.SetGroupVersionKind (t : LocalPolicyTargetReferenceWithSectionName) (gvk : Machinery.GroupVersionKind) : LocalPolicyTargetReferenceWithSectionName :=
  (fun _updatedCopy => t) (LocalPolicyTargetReferenceWithSectionName.setGroupVersionKindReceiver t gvk)

/-- `LocalPolicyTargetReferenceWithSectionName.GetNamespace() = t.PolicyNamespace`. -/
def LocalPolicyTargetReferenceWithSectionName.GetNamespace (t : LocalPolicyTargetReferenceWithSectionName) : String :=
  t.policyNamespace

/-- `LocalPolicyTargetReferenceWithSectionName.GetName()`: the embedded reference's
name when SectionName is nil, otherwise `namespacedSectionName(name, *t.SectionName)`. -/
def LocalPolicyTargetReferenceWithSectionName.GetName (t : LocalPolicyTargetReferenceWithSectionName) : String :=
  match t.sectionName with
  | none => t.name
  | some s => namespacedSectionName t.name s

/-- `LocalPolicyTargetReferenceWithSectionName.GetURL() = UrlFromObject(t)`. -/
def LocalPolicyTargetReferenceWithSectionName.GetURL (t : LocalPolicyTargetReferenceWithSectionName) : String :=
  UrlFromObject t.group t.kind (LocalPolicyTargetReferenceWithSectionName.GetNamespace t) (LocalPolicyTargetReferenceWithSectionName.GetName t)

/-- Wrapper `machinery.BackendTLSPolicy` around `*gwapiv1alpha3.BackendTLSPolicy`:
namespace, name, the spec's target references, and the TLS validation rules
(carried opaquely; `Merge` never inspects them). -/
structure BackendTLSPolicy where
  namespaceField : String
  name : String
  targetRefs : List LocalPolicyTargetReferenceWithSectionName
  validationRules : List String
deriving DecidableEq, Repr

/-- A value of the dynamic interface type `machinery.Policy`: either a
`*machinery.BackendTLSPolicy` or a policy of some other concrete kind (other
kinds fail the `other.(*BackendTLSPolicy)` type assertion in `Merge`). -/
inductive Policy where
  | backendTLS : BackendTLSPolicy → Policy
  | otherKind : String → Policy
deriving DecidableEq, Repr

/-- `machinery.MergeStrategy = func(Policy, Policy) Policy`. -/
def MergeStrategy : Type := Policy → Policy → Policy

/-- Modelled from the spec: `DefaultMergeStrategy` is referenced by
`BackendTLSPolicy.GetMergeStrategy` but its own definition is not among the
provided files. The spec (§3) describes the atomic strategy as a reducer
`(higher, lower) -> merged` in which the policy closer to the target fully
replaces the rules coming from ancestors, so the reducer returns its
closer-to-the-leaf argument whole. -/
def DefaultMergeStrategy : MergeStrategy :=
  fun _higher lower => lower

/-- `BackendTLSPolicy.GetMergeStrategy()` returns `DefaultMergeStrategy` for
every instance of the kind. -/
def BackendTLSPolicy.GetMergeStrategy (_ : BackendTLSPolicy) : MergeStrategy :=
  DefaultMergeStrategy

/-- `BackendTLSPolicy.Merge(other)`: asserts `other.(*BackendTLSPolicy)`; on
failure returns the receiver `p`, on success returns
`source.GetMergeStrategy()(source, p)`. -/
def BackendTLSPolicy.Merge (p : BackendTLSPolicy) (other : Policy) : Policy :=
  match other with
  | Policy.backendTLS source =>
      BackendTLSPolicy.GetMergeStrategy source (Policy.backendTLS source) (Policy.backendTLS p)
  | Policy.otherKind _ => Policy.backendTLS p

end Machinery

namespace Controller

/-- `unstructured.Unstructured`: a schemaless document together with the UID
the listing reads (`o.GetUID()`); `content` stands for `UnstructuredContent()`.
`δ` is the type of the generic document representation. -/
structure Unstructured (δ : Type) where
  uid : String
  content : δ
deriving DecidableEq, Repr

/-- A Go `any` value handed to `Restructure[T]`: either a
`*unstructured.Unstructured` or a value of some other dynamic type (carried
as the type's printed name, which only feeds the error message). -/
inductive GoValue (δ : Type) where
  | unstructured : Unstructured δ → GoValue δ
  | otherType : String → GoValue δ
deriving DecidableEq, Repr

/-- `Restructure[T](obj)`: errors unless `obj` is `*unstructured.Unstructured`;
otherwise applies `runtime.DefaultUnstructuredConverter.FromUnstructured` to the
unstructured content. The converter is an external collaborator (spec §6), so it
is a parameter `conv`; its error is returned as-is, its typed result on success. -/
def Restructure (conv : δ → Except String T) : GoValue δ → Except String T
  | GoValue.unstructured u => conv u.content
  | GoValue.otherType ty => Except.error ("unexpected object type: " ++ ty)

/-- One assignment `m[k] = v` into a Go map, represented as a key-unique
association list in insertion order: an existing key's value is overwritten,
a new key is appended. -/
def mapAssign (m : List (String × β)) (k : String) (v : β) : List (String × β) :=
  if m.any (fun kv => kv.1 == k) then
    m.map (fun kv => if kv.1 == k then (k, v) else kv)
  else
    m ++ [(k, v)]

/-- `lo.SliceToMap(xs, f)`: builds a map by iterating the slice and assigning
`m[k] = v` for each `(k, v) = f(x)`. -/
def sliceToMap (xs : List α) (f : α → String × β) : List (String × β) :=
  xs.foldl (fun m x => mapAssign m (f x).1 (f x).2) []

/-- The transform `StateReconciler`'s `listFunc` applies to each listed item:
`Restructure[T]` the unstructured object, producing the pair `("", nil)` on a
conversion error and `(string(o.GetUID()), obj)` on success. (The subsequent
`obj.(RuntimeObject)` assertion cannot fail, `T` being constrained to
`RuntimeObject`.) -/
def stateListFuncEntry (conv : δ → Except String T) (o : Unstructured δ) : String × Option T :=
  match Restructure conv (GoValue.unstructured o) with
  | Except.error _ => ("", none)
  | Except.ok obj => (o.uid, some obj)

/-- The `listFunc` closure built by `StateReconciler`: performs the client List
call (its outcome is the parameter `listResult`, the wire client being external
per spec §6); on a list error or an empty item list it returns `(gk, nil)`;
otherwise `gk` with the `lo.SliceToMap` of the items. -/
def stateListFunc (conv : δ → Except String T) (gk : Machinery.GroupKind)
    (listResult : Except String (List (Unstructured δ))) :
    Machinery.GroupKind × Option (List (String × Option T)) :=
  match listResult with
  | Except.error _ => (gk, none)
  | Except.ok items =>
      if items.length = 0 then (gk, none)
      else (gk, some (sliceToMap items (stateListFuncEntry conv)))

/-- Identity metadata every stored runtime object carries
(`GroupVersionKind`, namespace, name). -/
structure ObjectIdent where
  gvk : Machinery.GroupVersionKind
  namespaceField : String
  name : String
deriving DecidableEq, Repr

/-- The dynamic type of a value stored in the controller `Store`, as far as the
topology builder's type assertions distinguish it: one of the four raw typed
objects the builder casts to, a value implementing `machinery.Policy` (which
embeds `machinery.Object`), a value implementing only `machinery.Object`, or
any other `RuntimeObject`. -/
inductive RuntimeObject where
  | gatewayClass : ObjectIdent → RuntimeObject
  | gateway : ObjectIdent → RuntimeObject
  | httpRoute : ObjectIdent → RuntimeObject
  | service : ObjectIdent → RuntimeObject
  | machineryPolicy : ObjectIdent → RuntimeObject
  | machineryObject : ObjectIdent → RuntimeObject
  | otherRuntimeObject : ObjectIdent → RuntimeObject
deriving DecidableEq, Repr

/-- The type assertion `obj.(*gwapiv1.GatewayClass)`. -/
def asGatewayClass : RuntimeObject → Option ObjectIdent
  | RuntimeObject.gatewayClass i => some i
  | _ => none

/-- The type assertion `obj.(*gwapiv1.Gateway)`. -/
def asGateway : RuntimeObject → Option ObjectIdent
  | RuntimeObject.gateway i => some i
  | _ => none

/-- The type assertion `obj.(*gwapiv1.HTTPRoute)`. -/
def asHTTPRoute : RuntimeObject → Option ObjectIdent
  | RuntimeObject.httpRoute i => some i
  | _ => none

/-- The type assertion `obj.(*core.Service)`. -/
def asService : RuntimeObject → Option ObjectIdent
  | RuntimeObject.service i => some i
  | _ => none

/-- The interface assertion `obj.(machinery.Policy)`: succeeds exactly on
values implementing `machinery.Policy`, yielding the same value. -/
def asMachineryPolicy : RuntimeObject → Option RuntimeObject
  | RuntimeObject.machineryPolicy i => some (RuntimeObject.machineryPolicy i)
  | _ => none

/-- The interface assertion `obj.(machinery.Object)`: succeeds on values
implementing `machinery.Object`; `machinery.Policy` embeds `machinery.Object`,
so policy values pass too. -/
def asMachineryObject : RuntimeObject → Option RuntimeObject
  | RuntimeObject.machineryPolicy i => some (RuntimeObject.machineryPolicy i)
  | RuntimeObject.machineryObject i => some (RuntimeObject.machineryObject i)
  | _ => none

/-- An element of the builder's object-candidate list: the stored value itself
when it already implements `machinery.Object`, otherwise the stored value
wrapped in `controller.Object`. -/
inductive TopologyObject where
  | native : RuntimeObject → TopologyObject
  | wrapped : RuntimeObject → TopologyObject
deriving DecidableEq, Repr

/-- The object branch of `Build`'s `lo.FilterMap`: `obj.(machinery.Object)` when
it succeeds, else `&Object{obj}` — every entry is kept. -/
def objectCandidate (o : RuntimeObject) : TopologyObject :=
  match asMachineryObject o with
  | some m => TopologyObject.native m
  | none => TopologyObject.wrapped o

/-- `controller.Store`, restricted to what `Build` reads: for each GroupKind,
the values of the inner identity-indexed map (`lo.Values(objs[gk])`). -/
def Store : Type := Machinery.GroupKind → List RuntimeObject

/-- `schema.GroupKind{Group: gwapiv1.GroupVersion.Group, Kind: "GatewayClass"}`. -/
def gatewayClassGK : Machinery.GroupKind := ⟨Machinery.gatewayAPIGroupName, "GatewayClass"⟩

/-- `schema.GroupKind{Group: gwapiv1.GroupVersion.Group, Kind: "Gateway"}`. -/
def gatewayGK : Machinery.GroupKind := ⟨Machinery.gatewayAPIGroupName, "Gateway"⟩

/-- `schema.GroupKind{Group: gwapiv1.GroupVersion.Group, Kind: "HTTPRoute"}`. -/
def httpRouteGK : Machinery.GroupKind := ⟨Machinery.gatewayAPIGroupName, "HTTPRoute"⟩

/-- `schema.GroupKind{Group: core.GroupName, Kind: "Service"}`; `core.GroupName` is empty. -/
def serviceGK : Machinery.GroupKind := ⟨"", "Service"⟩

/-- Modelled from the spec: `machinery.NewGatewayAPITopology` is not among the
provided files; per spec §4.2 it assembles a consistent topology from the given
candidate collections, expansion rules and links. We record the options the
builder passes to it: the four typed candidate lists, the three expansion
rules, the policy candidates and the object candidates. -/
structure Topology where
  gatewayClasses : List ObjectIdent
  gateways : List ObjectIdent
  httpRoutes : List ObjectIdent
  services : List ObjectIdent
  expandListeners : Bool
  expandRouteRules : Bool
  expandPorts : Bool
  policies : List RuntimeObject
  objects : List TopologyObject
deriving DecidableEq, Repr

/-- `controller.gatewayAPITopologyBuilder`: the registered policy kinds and
object kinds (the link functions play no part in the candidate filtering). -/
structure gatewayAPITopologyBuilder where
  policyKinds : List Machinery.GroupKind
  objectKinds : List Machinery.GroupKind

/-- `gatewayAPITopologyBuilder.Build(objs)`: filters the store snapshot with
`lo.FilterMap` by group/kind into GatewayClass, Gateway, HTTPRoute and Service
candidates (dropping entries whose dynamic type fails the cast), expands
listeners, route rules and service ports, collects one policy-candidate list
per registered policy kind (dropping entries that do not implement
`machinery.Policy`) and one object-candidate list per registered object kind
(wrapping, never dropping), and hands everything to `NewGatewayAPITopology`. -/
def gatewayAPITopologyBuilder.Build (t : gatewayAPITopologyBuilder) (objs : Store) : Topology :=
  let gatewayClasses := (objs gatewayClassGK).filterMap asGatewayClass
  let gateways := (objs gatewayGK).filterMap asGateway
  let httpRoutes := (objs httpRouteGK).filterMap asHTTPRoute
  let services := (objs serviceGK).filterMap asService
  let policies := (t.policyKinds.map (fun policyKind => (objs policyKind).filterMap asMachineryPolicy)).flatten
  let objects := (t.objectKinds.map (fun objectKind => (objs objectKind).map objectCandidate)).flatten
  { gatewayClasses := gatewayClasses
    gateways := gateways
    httpRoutes := httpRoutes
    services := services
    expandListeners := true
    expandRouteRules := true
    expandPorts := true
    policies := policies
    objects := objects }

/-- `ListFunc = func() (schema.GroupKind, RuntimeObjects)`; `RuntimeObjects` is
a UID-keyed map whose value may be the nil interface (`none`). -/
def ListFunc : Type :=
  Unit → Machinery.GroupKind × Option (List (String × Option RuntimeObject))

/-- The `Controller` state that `stateReconciler.Run` touches: the registered
list functions. -/
structure ControllerState where
  listFuncs : List ListFunc

/-- The `stateReconciler` runnable: holds the controller reference and the
`listFunc` built by `StateReconciler`. -/
structure stateReconciler where
  listFunc : ListFunc

/-- `stateReconciler.Run(stopCh)`: executes
`r.controller.listFuncs = append(r.controller.listFuncs)` — an `append` call
given no elements beyond the slice itself, modelled on the controller state. -/
def stateReconciler.Run (_r : stateReconciler) (c : ControllerState) : ControllerState :=
  { c with listFuncs := List.append c.listFuncs [] }

/-- `stateReconciler.HasSynced()` returns `true` unconditionally. -/
def stateReconciler.HasSynced (_r : stateReconciler) : Bool :=
  true

end Controller

open Machinery Controller

/-- The reserved separator character, as a one-character string. -/
theorem singleton_separator_eq : String.singleton nameSectionNameURLSeparator = "#" :=
  rfl

/-- C1: for every expanded sub-resource node — a Listener with its parent
Gateway, an HTTPRouteRule with its parent HTTPRoute, a ServicePort with its
parent Service — the node's `GetURL` equals its parent's `GetURL` followed by
the reserved separator character '#' and the sub-resource's name. -/
theorem expanded_node_url_is_parent_url_separator_name :
    String.singleton nameSectionNameURLSeparator = "#"
    ∧ (∀ l : Listener, l.GetURL = l.gateway.GetURL ++ "#" ++ l.name)
    ∧ (∀ r : HTTPRouteRule, r.GetURL = r.httpRoute.GetURL ++ "#" ++ r.name)
    ∧ (∀ p : ServicePort, p.GetURL = p.service.GetURL ++ "#" ++ p.name) :=
  ⟨rfl, fun _ => rfl, fun _ => rfl, fun _ => rfl⟩

/-- C2: a `LocalPolicyTargetReferenceWithSectionName` with a section name has
`GetName` equal to the target's name followed by '#' and the section name, and
its `GetURL` equals the URL of the corresponding expanded sub-resource node
(the Listener of the targeted Gateway) and differs from the parent Gateway's
URL; with SectionName nil, `GetName` equals the parent target's name. -/
theorem section_name_ref_resolves_to_expanded_node :
    (∀ (t : LocalPolicyTargetReferenceWithSectionName) (s : String),
      t.sectionName = some s → t.GetName = t.name ++ "#" ++ s)
    ∧ (∀ t : LocalPolicyTargetReferenceWithSectionName,
      t.sectionName = none → t.GetName = t.name)
    ∧ (∀ (g : Gateway) (s : String),
      LocalPolicyTargetReferenceWithSectionName.GetURL
          ⟨g.gvk.group, g.gvk.kind, g.name, some s, g.namespaceField⟩
        = Listener.GetURL ⟨g, s⟩
      ∧ LocalPolicyTargetReferenceWithSectionName.GetURL
          ⟨g.gvk.group, g.gvk.kind, g.name, some s, g.namespaceField⟩
        ≠ g.GetURL) := by
  refine ⟨?_, ?_, ?_⟩
  · intro t s hs
    simp [LocalPolicyTargetReferenceWithSectionName.GetName, hs, namespacedSectionName,
      singleton_separator_eq]
  · intro t hn
    simp [LocalPolicyTargetReferenceWithSectionName.GetName, hn]
  · intro g s
    constructor
    · simp [LocalPolicyTargetReferenceWithSectionName.GetURL,
        LocalPolicyTargetReferenceWithSectionName.GetName,
        LocalPolicyTargetReferenceWithSectionName.GetNamespace,
        Listener.GetURL, UrlFromObject, namespacedSectionName, String.append_assoc]
    · intro h
      have hlen := congrArg String.length h
      simp [LocalPolicyTargetReferenceWithSectionName.GetURL,
        LocalPolicyTargetReferenceWithSectionName.GetName,
        LocalPolicyTargetReferenceWithSectionName.GetNamespace,
        Gateway.GetURL, UrlFromObject, namespacedSectionName,
        String.length_append] at hlen
      omega

/-- C3: `BackendTLSPolicy.Merge(other)` merges via the policy kind's merge
strategy: when `other` is a `BackendTLSPolicy` the result is the strategy
applied to the two policies, when it is of another kind the receiver is
returned unchanged; and `GetMergeStrategy` is the same strategy for every
policy of the kind. -/
theorem backend_tls_merge_applies_kind_strategy :
    (∀ (p q : BackendTLSPolicy),
      p.Merge (Policy.backendTLS q)
        = q.GetMergeStrategy (Policy.backendTLS q) (Policy.backendTLS p))
    ∧ (∀ (p : BackendTLSPolicy) (tag : String),
      p.Merge (Policy.otherKind tag) = Policy.backendTLS p)
    ∧ (∀ p q : BackendTLSPolicy, p.GetMergeStrategy = q.GetMergeStrategy) :=
  ⟨fun _ _ => rfl, fun _ _ => rfl, fun _ _ => rfl⟩

/-- C8: a `NamespacedPolicyTargetReference` with nil Namespace field resolves
`GetNamespace` to the owning policy's namespace and to the explicit namespace
when the field is set; a `LocalPolicyTargetReference` always resolves to the
owning policy's namespace. -/
theorem target_ref_namespace_defaults_to_policy_namespace :
    (∀ t : NamespacedPolicyTargetReference,
      (t.namespaceField = none → t.GetNamespace = t.policyNamespace)
      ∧ ∀ ns, t.namespaceField = some ns → t.GetNamespace = ns)
    ∧ (∀ t : LocalPolicyTargetReference, t.GetNamespace = t.policyNamespace) := by
  refine ⟨fun t => ⟨fun hn => ?_, fun ns hs => ?_⟩, fun t => rfl⟩
  · simp [NamespacedPolicyTargetReference.GetNamespace, hn]
  · simp [NamespacedPolicyTargetReference.GetNamespace, hs]

/-- C9: for the three policy target reference types, calling
`SetGroupVersionKind` has no observable effect on the caller's value — the
value afterwards (and hence its `GroupVersionKind()`) is unchanged — while the
method body does write the new group and kind into its value-receiver copy. -/
theorem set_group_version_kind_has_no_observable_effect (gvk : Machinery.GroupVersionKind) :
    (∀ t : NamespacedPolicyTargetReference,
      t.SetGroupVersionKind gvk = t
      ∧ (t.SetGroupVersionKind gvk).GroupVersionKind = t.GroupVersionKind
      ∧ (t.setGroupVersionKindReceiver gvk).group = gvk.group
      ∧ (t.setGroupVersionKindReceiver gvk).kind = gvk.kind)
    ∧ (∀ t : LocalPolicyTargetReference,
      t.SetGroupVersionKind gvk = t
      ∧ (t.SetGroupVersionKind gvk).GroupVersionKind = t.GroupVersionKind
      ∧ (t.setGroupVersionKindReceiver gvk).group = gvk.group
      ∧ (t.setGroupVersionKindReceiver gvk).kind = gvk.kind)
    ∧ (∀ t : LocalPolicyTargetReferenceWithSectionName,
      t.SetGroupVersionKind gvk = t
      ∧ (t.SetGroupVersionKind gvk).GroupVersionKind = t.GroupVersionKind
      ∧ (t.setGroupVersionKindReceiver gvk).group = gvk.group
      ∧ (t.setGroupVersionKindReceiver gvk).kind = gvk.kind) :=
  ⟨fun _ => ⟨rfl, rfl, rfl, rfl⟩, fun _ => ⟨rfl, rfl, rfl, rfl⟩, fun _ => ⟨rfl, rfl, rfl, rfl⟩⟩

/-- C9 witness: the frame property evaluated at a concrete reference and a
concrete GroupVersionKind. -/
theorem set_group_version_kind_witness :
    NamespacedPolicyTargetReference.SetGroupVersionKind
        ⟨"g", "k", "n", none, "pns"⟩ ⟨"g2", "v2", "k2"⟩
      = ⟨"g", "k", "n", none, "pns"⟩ :=
  (set_group_version_kind_has_no_observable_effect ⟨"g2", "v2", "k2"⟩).1
    ⟨"g", "k", "n", none, "pns"⟩ |>.1

/-- C10: `stateReconciler.HasSynced` returns true unconditionally, for every
reconciler value and in particular before any initial listing. -/
theorem state_reconciler_has_synced_always_true :
    ∀ r : stateReconciler, r.HasSynced = true :=
  fun _ => rfl

/-- C6: `Restructure[T]` errors whenever the input is not an
`*unstructured.Unstructured` or the unstructured-to-typed conversion fails,
and returns exactly the converted typed object on success — never a coerced
value on a conversion failure. -/
theorem restructure_errors_never_coerce {δ T : Type} :
    ∀ (conv : δ → Except String T) (obj : GoValue δ),
      (∀ t, Restructure conv obj = Except.ok t →
        ∃ u, obj = GoValue.unstructured u ∧ conv u.content = Except.ok t)
      ∧ (∀ ty, obj = GoValue.otherType ty → ∃ e, Restructure conv obj = Except.error e)
      ∧ (∀ u e, obj = GoValue.unstructured u → conv u.content = Except.error e →
          Restructure conv obj = Except.error e) := by
  intro conv obj
  refine ⟨?_, ?_, ?_⟩
  · intro t ht
    cases obj with
    | unstructured u => exact ⟨u, rfl, ht⟩
    | otherType ty => simp [Restructure] at ht
  · intro ty hty
    subst hty
    exact ⟨"unexpected object type: " ++ ty, rfl⟩
  · intro u e hu he
    subst hu
    simpa [Restructure] using he

/-- Every entry of a Go map after the assignment `m[k] = v` was already in the
map or is the assigned pair. -/
theorem mem_mapAssign {β : Type} {m : List (String × β)} {k : String} {v : β}
    {kv : String × β} (h : kv ∈ mapAssign m k v) : kv ∈ m ∨ kv = (k, v) := by
  unfold mapAssign at h
  split at h
  · obtain ⟨kv', hkv', heq⟩ := List.mem_map.1 h
    by_cases hk : kv'.1 == k
    · right
      rw [if_pos hk] at heq
      exact heq.symm
    · left
      rw [if_neg hk] at heq
      exact heq ▸ hkv'
  · rcases List.mem_append.1 h with h' | h'
    · exact Or.inl h'
    · right
      simpa using h'

/-- Every entry of `lo.SliceToMap(xs, f)` is the transform of some slice
element. -/
theorem mem_sliceToMap {α β : Type} {xs : List α} {f : α → String × β}
    {kv : String × β} (h : kv ∈ sliceToMap xs f) : ∃ x ∈ xs, f x = kv := by
  suffices H : ∀ acc : List (String × β),
      kv ∈ xs.foldl (fun m x => mapAssign m (f x).1 (f x).2) acc →
      kv ∈ acc ∨ ∃ x ∈ xs, f x = kv by
    rcases H [] h with h' | h'
    · simp at h'
    · exact h'
  clear h
  induction xs with
  | nil =>
    intro acc h'
    exact Or.inl h'
  | cons y ys ih =>
    intro acc h'
    rcases ih (mapAssign acc (f y).1 (f y).2) h' with h'' | ⟨x, hx, hfx⟩
    · rcases mem_mapAssign h'' with h3 | h3
      · exact Or.inl h3
      · exact Or.inr ⟨y, List.mem_cons_self y ys, (h3.trans Prod.mk.eta).symm⟩
    · exact Or.inr ⟨x, List.mem_cons_of_mem y hx, hfx⟩

/-- The unstructured document of the C4 counterexample. -/
def badItem : Unstructured Unit := ⟨"uid-1", ()⟩

/-- A converter that rejects every document. -/
def failingConv : Unit → Except String Unit :=
  fun _ => Except.error "conversion failed"

/-- C4 counterexample: listing a single object whose conversion fails yields a
store view that still holds an entry — the pair ("", nil) — although no listed
object converts successfully, so the map does not contain entries only for
successfully converted objects keyed by their UID. -/
theorem state_list_func_keeps_placeholder_entry :
    ∃ m, (stateListFunc failingConv ⟨"", "Widget"⟩ (Except.ok [badItem])).2 = some m
      ∧ ∃ kv ∈ m,
        ¬ ∃ t : Unit, Restructure failingConv (GoValue.unstructured badItem) = Except.ok t
            ∧ kv = (badItem.uid, some t) := by
  refine ⟨[("", none)], rfl, ("", none), by simp, ?_⟩
  rintro ⟨t, ht, -⟩
  simp [Restructure, failingConv] at ht

/-- C4 amended: every entry of the map returned by the StateReconciler source's
`listFunc` is either an entry `(UID, converted object)` for a successfully
converted listed object, or the single placeholder entry `("", nil)`
contributed by objects whose conversion failed; a failed object's data never
appears in the view. -/
theorem state_list_func_entries_converted_or_placeholder {δ T : Type}
    (conv : δ → Except String T) (gk : Machinery.GroupKind)
    (listResult : Except String (List (Unstructured δ)))
    (m : List (String × Option T))
    (hm : (stateListFunc conv gk listResult).2 = some m) :
    ∀ kv ∈ m, kv = ("", none)
      ∨ ∃ u t, (∃ items, listResult = Except.ok items ∧ u ∈ items)
          ∧ conv u.content = Except.ok t ∧ kv = (u.uid, some t) := by
  intro kv hkv
  match hres : listResult with
  | Except.error e =>
    subst hres
    simp [stateListFunc] at hm
  | Except.ok items =>
    subst hres
    by_cases hlen : items.length = 0
    · simp [stateListFunc, hlen] at hm
    · rw [stateListFunc] at hm
      simp only [if_neg hlen, Option.some.injEq] at hm
      subst hm
      obtain ⟨u, hu, hfu⟩ := mem_sliceToMap hkv
      rw [stateListFuncEntry] at hfu
      match hconv : Restructure conv (GoValue.unstructured u) with
      | Except.error e =>
        rw [hconv] at hfu
        exact Or.inl hfu.symm
      | Except.ok t =>
        rw [hconv] at hfu
        exact Or.inr ⟨u, t, ⟨items, rfl, hu⟩, hconv, hfu.symm⟩

/-- A document type and converter for the C4 witness: conversion succeeds. -/
def okConv : Unit → Except String Unit :=
  fun _ => Except.ok ()

/-- C4 witness: the amended statement evaluated on a one-item listing whose
conversion succeeds — the single map entry is the UID-keyed converted object
(not the placeholder). -/
theorem state_list_func_amended_witness :
    ((("uid-1" : String), (some () : Option Unit)) = ("", none))
    ∨ ∃ u t, (∃ items, (Except.ok [badItem] : Except String (List (Unstructured Unit))) = Except.ok items ∧ u ∈ items)
        ∧ okConv u.content = Except.ok t ∧ (("uid-1" : String), (some () : Option Unit)) = (u.uid, some t) :=
  state_list_func_entries_converted_or_placeholder okConv ⟨"", "Widget"⟩
    (Except.ok [badItem]) [("uid-1", some ())] rfl ("uid-1", some ()) (by simp)

/-- A concrete list function for the C5 record. -/
def sampleListFunc : ListFunc :=
  fun _ => (⟨"", "Widget"⟩, none)

/-- A concrete `stateReconciler` holding `sampleListFunc`. -/
def sampleStateReconciler : stateReconciler :=
  ⟨sampleListFunc⟩

/-- C5: `stateReconciler.Run` never registers the reconciler's `listFunc`: the
`append` call adds no elements, so for every reconciler and controller state
`listFuncs` is unchanged, and on a controller with no registered list
functions it stays empty — the source's initial state never becomes available
to the controller. -/
theorem state_reconciler_run_registers_nothing :
    (stateReconciler.Run sampleStateReconciler ⟨[]⟩).listFuncs = []
    ∧ ∀ (r : stateReconciler) (c : ControllerState),
        (stateReconciler.Run r c).listFuncs = c.listFuncs :=
  ⟨rfl, fun _ c => List.append_nil c.listFuncs⟩

/-- Inverting the type assertion `obj.(*gwapiv1.GatewayClass)`. -/
theorem asGatewayClass_eq_some {o : RuntimeObject} {i : ObjectIdent} :
    asGatewayClass o = some i ↔ o = RuntimeObject.gatewayClass i := by
  cases o <;> simp [asGatewayClass]

/-- Inverting the type assertion `obj.(*gwapiv1.Gateway)`. -/
theorem asGateway_eq_some {o : RuntimeObject} {i : ObjectIdent} :
    asGateway o = some i ↔ o = RuntimeObject.gateway i := by
  cases o <;> simp [asGateway]

/-- Inverting the type assertion `obj.(*gwapiv1.HTTPRoute)`. -/
theorem asHTTPRoute_eq_some {o : RuntimeObject} {i : ObjectIdent} :
    asHTTPRoute o = some i ↔ o = RuntimeObject.httpRoute i := by
  cases o <;> simp [asHTTPRoute]

/-- Inverting the type assertion `obj.(*core.Service)`. -/
theorem asService_eq_some {o : RuntimeObject} {i : ObjectIdent} :
    asService o = some i ↔ o = RuntimeObject.service i := by
  cases o <;> simp [asService]

/-- C7: `gatewayAPITopologyBuilder.Build` is a total function of the store —
it never fails on malformed input — and filters the snapshot by group/kind:
the GatewayClass, Gateway, HTTPRoute and Service candidates are exactly the
store entries under the respective GroupKind whose dynamic type matches, the
policy candidates exactly the entries under the registered policy kinds that
implement `machinery.Policy` (a mismatched entry is silently dropped from the
candidates), and every entry under a registered object kind survives into the
object candidates. -/
theorem build_filters_by_kind_and_drops_mismatches
    (t : gatewayAPITopologyBuilder) (objs : Store) :
    (∀ i, i ∈ (t.Build objs).gatewayClasses ↔ RuntimeObject.gatewayClass i ∈ objs gatewayClassGK)
    ∧ (∀ i, i ∈ (t.Build objs).gateways ↔ RuntimeObject.gateway i ∈ objs gatewayGK)
    ∧ (∀ i, i ∈ (t.Build objs).httpRoutes ↔ RuntimeObject.httpRoute i ∈ objs httpRouteGK)
    ∧ (∀ i, i ∈ (t.Build objs).services ↔ RuntimeObject.service i ∈ objs serviceGK)
    ∧ (∀ p, p ∈ (t.Build objs).policies ↔
        ∃ k ∈ t.policyKinds, ∃ o ∈ objs k, asMachineryPolicy o = some p)
    ∧ (∀ k ∈ t.objectKinds, ∀ o ∈ objs k, objectCandidate o ∈ (t.Build objs).objects) := by
  refine ⟨?_, ?_, ?_, ?_, ?_, ?_⟩
  · intro i
    simp [gatewayAPITopologyBuilder.Build, List.mem_filterMap, asGatewayClass_eq_some]
  · intro i
    simp [gatewayAPITopologyBuilder.Build, List.mem_filterMap, asGateway_eq_some]
  · intro i
    simp [gatewayAPITopologyBuilder.Build, List.mem_filterMap, asHTTPRoute_eq_some]
  · intro i
    simp [gatewayAPITopologyBuilder.Build, List.mem_filterMap, asService_eq_some]
  · intro p
    simp [gatewayAPITopologyBuilder.Build, List.mem_flatten, List.mem_map,
      List.mem_filterMap]
  · intro k hk o ho
    simp [gatewayAPITopologyBuilder.Build, List.mem_flatten, List.mem_map]
    exact ⟨k, hk, o, ho, rfl⟩

/-- C7 witness: the characterization evaluated at a concrete builder and
store. -/
theorem build_filters_witness :
    (⟨⟨"", "v1", "GatewayClass"⟩, "ns", "gc"⟩ : ObjectIdent)
      ∈ (gatewayAPITopologyBuilder.Build ⟨[], []⟩
          (fun gk => if gk = gatewayClassGK
            then [RuntimeObject.gatewayClass ⟨⟨"", "v1", "GatewayClass"⟩, "ns", "gc"⟩]
            else [])).gatewayClasses :=
  ((build_filters_by_kind_and_drops_mismatches ⟨[], []⟩
      (fun gk => if gk = gatewayClassGK
        then [RuntimeObject.gatewayClass ⟨⟨"", "v1", "GatewayClass"⟩, "ns", "gc"⟩]
        else [])).1
    ⟨⟨"", "v1", "GatewayClass"⟩, "ns", "gc"⟩).2 (by simp)
